import Mathlib

/-!
Shallow embedding of `src/facilities_management.py` (BlackRoad Facilities
Management): a SQLite-backed inventory of buildings, rooms and assets.

The SQLite store is modelled as a `Store`: the three tables as lists of
records in insertion (rowid) order, together with the next AUTOINCREMENT
rowid of each table.  Each repository method of the Python class
`FacilitiesManagement` becomes a function from `Store` to a result paired
with the successor store; `datetime.now().isoformat()` is an external
input and is passed in as an explicit `now : String` argument.  The
`total_sqft` REAL column is only ever stored and returned, never computed
with, so its carrier is modelled as `Int`.  Fallible operations return
`Except Err`; on failure the store component equals the input store, which
models sqlite3's transaction rollback (a failed single INSERT writes
nothing).
-/

namespace Facilities

/-- One row of the `buildings` table / the Python `Building` dataclass. -/
structure Building where
  id : Int
  name : String
  address : String
  floors : Int
  total_sqft : Int
  building_type : String
  created_at : String
  active : Int
deriving DecidableEq, Repr

/-- One row of the `rooms` table / the Python `Room` dataclass. -/
structure Room where
  id : Int
  building_id : Int
  name : String
  floor : Int
  capacity : Int
  room_type : String
  status : String
  created_at : String
deriving DecidableEq, Repr

/-- One row of the `assets` table / the Python `Asset` dataclass. -/
structure Asset where
  id : Int
  room_id : Int
  name : String
  asset_type : String
  serial_number : String
  purchase_date : String
  condition : String
  last_inspected : String
  notes : String
deriving DecidableEq, Repr

/-- The persistent store: the three tables in rowid (insertion) order plus
the next AUTOINCREMENT id of each table, and the database path reported by
`status()`. -/
structure Store where
  db_path : String
  buildings : List Building
  rooms : List Room
  assets : List Asset
  nextBuildingId : Int
  nextRoomId : Int
  nextAssetId : Int
deriving DecidableEq, Repr

/-- A store right after `_init_db` on a fresh database file: empty tables,
first AUTOINCREMENT rowid is 1. -/
def emptyStore (path : String) : Store :=
  { db_path := path, buildings := [], rooms := [], assets := []
    nextBuildingId := 1, nextRoomId := 1, nextAssetId := 1 }

/-- Errors surfaced by the repository layer: `sqlite3.IntegrityError` for a
UNIQUE-constraint violation, and Python `ValueError` with its message. -/
inductive Err where
  | uniqueConstraint (what : String)
  | valueError (msg : String)
deriving DecidableEq, Repr

/-- `SELECT id FROM buildings WHERE name=? ... fetchone()`: the first
building row whose name matches, if any. -/
def findBuilding (s : Store) (name : String) : Option Building :=
  s.buildings.find? (fun b => b.name == name)

/-- `FacilitiesManagement.add_building`: INSERT a building row.  The
`name` column is `TEXT NOT NULL UNIQUE`, so the insert raises an
IntegrityError when any existing row (active or not) has the same name;
otherwise the row is appended with `active` defaulted to 1 and the
populated record is returned. -/
def add_building (s : Store) (name : String) (address : String)
    (floors : Int) (sqft : Int) (building_type : String) (now : String) :
    Except Err Building × Store :=
  if s.buildings.any (fun b => b.name == name) then
    (.error (.uniqueConstraint "buildings.name"), s)
  else
    let b : Building :=
      { id := s.nextBuildingId, name := name, address := address
        floors := floors, total_sqft := sqft, building_type := building_type
        created_at := now, active := 1 }
    (.ok b, { s with buildings := s.buildings ++ [b]
                     nextBuildingId := s.nextBuildingId + 1 })

/-- `FacilitiesManagement.add_room`: look the building up by exact name;
raise `ValueError("Building '<name>' not found")` when there is none,
otherwise INSERT the room with status defaulted to "available" and return
the populated record. -/
def add_room (s : Store) (building_name : String) (room_name : String)
    (floor : Int) (capacity : Int) (room_type : String) (now : String) :
    Except Err Room × Store :=
  match findBuilding s building_name with
  | none =>
    (.error (.valueError ("Building \x27" ++ building_name ++ "\x27 not found")), s)
  | some b =>
    let r : Room :=
      { id := s.nextRoomId, building_id := b.id, name := room_name
        floor := floor, capacity := capacity, room_type := room_type
        status := "available", created_at := now }
    (.ok r, { s with rooms := s.rooms ++ [r], nextRoomId := s.nextRoomId + 1 })

/-- `FacilitiesManagement.add_asset`: INSERT unconditionally (sqlite3 does
not enable foreign-key enforcement, so `room_id` is not checked against the
rooms table); `last_inspected` is set to the creation timestamp. -/
def add_asset (s : Store) (room_id : Int) (name : String)
    (asset_type : String) (serial_number : String) (purchase_date : String)
    (condition : String) (notes : String) (now : String) :
    Except Err Asset × Store :=
  let a : Asset :=
    { id := s.nextAssetId, room_id := room_id, name := name
      asset_type := asset_type, serial_number := serial_number
      purchase_date := purchase_date, condition := condition
      last_inspected := now, notes := notes }
  (.ok a, { s with assets := s.assets ++ [a], nextAssetId := s.nextAssetId + 1 })

/-- `FacilitiesManagement.list_buildings`:
`SELECT * FROM buildings WHERE active=1`, rows in rowid order. -/
def list_buildings (s : Store) : List Building :=
  s.buildings.filter (fun b => b.active == 1)

/-- `FacilitiesManagement.list_rooms`: Python's `if building_name:` is
truthiness, so both `None` and the empty string select the unfiltered
branch; a non-empty name that matches no building yields `[]`, and a
matching one yields `SELECT * FROM rooms WHERE building_id=?`. -/
def list_rooms (s : Store) (building_name : Option String) : List Room :=
  match building_name with
  | some n =>
    if n = "" then s.rooms
    else
      match findBuilding s n with
      | none => []
      | some b => s.rooms.filter (fun r => r.building_id == b.id)
  | none => s.rooms

/-- `FacilitiesManagement.list_assets`: Python's `if room_id:` is
truthiness, so both `None` and `0` select the unfiltered branch; any other
id yields `SELECT * FROM assets WHERE room_id=?`. -/
def list_assets (s : Store) (room_id : Option Int) : List Asset :=
  match room_id with
  | some r =>
    if r = 0 then s.assets
    else s.assets.filter (fun a => a.room_id == r)
  | none => s.assets

/-- The summary record returned by `FacilitiesManagement.status`. -/
structure StatusInfo where
  active_buildings : Nat
  total_rooms : Nat
  available_rooms : Nat
  total_assets : Nat
  db_path : String
deriving DecidableEq, Repr

/-- `FacilitiesManagement.status`: four independent COUNT(*) aggregates
plus the database path. -/
def status (s : Store) : StatusInfo :=
  { active_buildings := (s.buildings.filter (fun b => b.active == 1)).length
    total_rooms := s.rooms.length
    available_rooms := (s.rooms.filter (fun r => r.status == "available")).length
    total_assets := s.assets.length
    db_path := s.db_path }

/-- The full dump returned by `FacilitiesManagement.export_data`; each
record stands for its `asdict` field mapping. -/
structure ExportData where
  buildings : List Building
  rooms : List Room
  assets : List Asset
  exported_at : String
deriving DecidableEq, Repr

/-- `FacilitiesManagement.export_data`: SELECT every row of the three
tables, with no active-flag filtering, plus an export timestamp. -/
def export_data (s : Store) (now : String) : ExportData :=
  { buildings := s.buildings, rooms := s.rooms, assets := s.assets
    exported_at := now }

/-- Invariants of every store reachable from an empty database through the
repository operations: building names are unique (the UNIQUE constraint),
building ids are strictly increasing in row order and positive, and the
next AUTOINCREMENT id is beyond all assigned ids. -/
def Store.wf (s : Store) : Prop :=
  s.buildings.Pairwise (fun a b => a.id < b.id) ∧
  (s.buildings.map Building.name).Nodup ∧
  (∀ b ∈ s.buildings, 0 < b.id ∧ b.id < s.nextBuildingId) ∧
  0 < s.nextBuildingId

instance (s : Store) : Decidable s.wf := by
  unfold Store.wf; infer_instance

/-! Concrete stores used by the scenario theorems and witnesses: the spec's
test scenario of 2 buildings, 3 rooms across them and 5 assets, replayed
through the repository operations from an empty database. -/

def d1 : Store := (add_building (emptyStore "db") "HQ" "1 Main St" 5 10000 "office" "t1").2

def d2 : Store := (add_building d1 "Annex" "2 East St" 2 4000 "office" "t2").2

def d3 : Store := (add_room d2 "HQ" "Room 101" 1 20 "office" "t3").2

def d4 : Store := (add_room d3 "HQ" "Room 102" 2 10 "office" "t4").2

def d5 : Store := (add_room d4 "Annex" "Lab" 1 8 "lab" "t5").2

def d6 : Store := (add_asset d5 1 "Projector" "equipment" "SN1" "" "fair" "" "t6").2

def d7 : Store := (add_asset d6 1 "Whiteboard" "furniture" "" "" "good" "" "t7").2

def d8 : Store := (add_asset d7 2 "Desk" "furniture" "" "" "good" "" "t8").2

def d9 : Store := (add_asset d8 3 "Microscope" "equipment" "SN2" "" "excellent" "" "t9").2

def d10 : Store := (add_asset d9 99 "Ladder" "equipment" "" "" "poor" "" "t10").2

end Facilities

namespace Facilities

/-- C1: `add_room` with a building name matching no existing building
fails with `ValueError "Building '<name>' not found"` and leaves the store
unchanged, so no room row is created. -/
theorem add_room_missing_building (s : Store) (bn rn : String)
    (fl cap : Int) (rt now : String)
    (h : ∀ b ∈ s.buildings, b.name ≠ bn) :
    (add_room s bn rn fl cap rt now).1
        = .error (.valueError ("Building \x27" ++ bn ++ "\x27 not found")) ∧
    (add_room s bn rn fl cap rt now).2 = s := by
  have hf : findBuilding s bn = none := by
    apply List.find?_eq_none.mpr
    intro b hb
    simpa using h b hb
  simp [add_room, hf]

/-- C1 witness: `add_room` on the empty store fails with the NotFound
message and changes nothing. -/
theorem add_room_missing_building_witness :
    (∀ b ∈ (emptyStore "p").buildings, b.name ≠ "HQ") ∧
    ((add_room (emptyStore "p") "HQ" "R1" 1 10 "office" "t").1
        = .error (.valueError ("Building \x27HQ\x27 not found")) ∧
     (add_room (emptyStore "p") "HQ" "R1" 1 10 "office" "t").2 = emptyStore "p") :=
  ⟨by decide,
   add_room_missing_building (emptyStore "p") "HQ" "R1" 1 10 "office" "t" (by decide)⟩

/-- C10: `list_rooms` with the empty string as building name takes the
falsy branch of `if building_name:` and returns all rooms in the store,
exactly as the no-filter call does. -/
theorem list_rooms_empty_string_unfiltered (s : Store) :
    list_rooms s (some "") = s.rooms ∧
    list_rooms s (some "") = list_rooms s none := by
  constructor <;> rfl

/-- C9: `add_asset` succeeds unconditionally for every `room_id`
(including ids referencing no existing room — no foreign-key check is
performed), returns the record with the assigned id and `last_inspected`
set to the creation timestamp, and appends exactly that row. -/
theorem add_asset_unconditional (s : Store) (rid : Int)
    (name aty sn pd cond notes now : String) :
    (add_asset s rid name aty sn pd cond notes now).1
        = .ok { id := s.nextAssetId, room_id := rid, name := name
                asset_type := aty, serial_number := sn, purchase_date := pd
                condition := cond, last_inspected := now, notes := notes } ∧
    (add_asset s rid name aty sn pd cond notes now).2.assets
        = s.assets ++ [{ id := s.nextAssetId, room_id := rid, name := name
                         asset_type := aty, serial_number := sn
                         purchase_date := pd, condition := cond
                         last_inspected := now, notes := notes }] := by
  constructor <;> rfl

/-- C3: after registering 2 buildings, 3 rooms under them and 5 assets
from the empty store (every registration succeeding), `status()` reports
active_buildings=2, total_rooms=3, available_rooms=3, total_assets=5; and
in general `status` reports the count of active buildings, of all rooms,
of rooms whose status is exactly "available", and of all assets. -/
theorem status_counts :
    ((add_building (emptyStore "db") "HQ" "1 Main St" 5 10000 "office" "t1").1.toOption.isSome
      ∧ (add_building d1 "Annex" "2 East St" 2 4000 "office" "t2").1.toOption.isSome
      ∧ (add_room d2 "HQ" "Room 101" 1 20 "office" "t3").1.toOption.isSome
      ∧ (add_room d3 "HQ" "Room 102" 2 10 "office" "t4").1.toOption.isSome
      ∧ (add_room d4 "Annex" "Lab" 1 8 "lab" "t5").1.toOption.isSome) ∧
    ((status d10).active_buildings = 2 ∧ (status d10).total_rooms = 3 ∧
     (status d10).available_rooms = 3 ∧ (status d10).total_assets = 5) ∧
    (∀ s : Store,
      (status s).active_buildings = s.buildings.countP (fun b => b.active == 1) ∧
      (status s).total_rooms = s.rooms.length ∧
      (status s).available_rooms = s.rooms.countP (fun r => r.status == "available") ∧
      (status s).total_assets = s.assets.length) := by
  refine ⟨by decide, by decide, fun s => ⟨?_, rfl, ?_, rfl⟩⟩ <;>
    simp [status, List.countP_eq_length_filter]

/-- C4: `export_data` dumps exactly the building, room and asset rows of
the store (no active-flag filtering, so inactive buildings are included,
unlike `list_buildings`); two exports of the same store agree on the three
row sets and differ only in the export timestamp. -/
theorem export_data_roundtrip (s : Store) (t1 t2 : String) :
    (export_data s t1).buildings = s.buildings ∧
    (export_data s t1).rooms = s.rooms ∧
    (export_data s t1).assets = s.assets ∧
    (export_data s t1).buildings = (export_data s t2).buildings ∧
    (export_data s t1).rooms = (export_data s t2).rooms ∧
    (export_data s t1).assets = (export_data s t2).assets ∧
    (export_data s t1).exported_at = t1 ∧
    (export_data s t2).exported_at = t2 := by
  exact ⟨rfl, rfl, rfl, rfl, rfl, rfl, rfl, rfl⟩

/-- C6: a falsy room id (`None` or `0`) makes `list_assets` return all
assets, exactly like the no-filter call; a truthy id returns exactly the
assets whose `room_id` equals it. -/
theorem list_assets_falsy_filter (s : Store) (r : Int) (hr : r ≠ 0) :
    list_assets s (some 0) = list_assets s none ∧
    list_assets s none = s.assets ∧
    list_assets s (some r) = s.assets.filter (fun a => a.room_id == r) := by
  refine ⟨rfl, rfl, ?_⟩
  simp [list_assets, hr]

/-- C6 witness: on the scenario store, filtering by room id 0 returns all
five assets and filtering by room id 1 returns exactly the two assets of
room 1. -/
theorem list_assets_falsy_filter_witness :
    (1 : Int) ≠ 0 ∧
    (list_assets d10 (some 0) = list_assets d10 none ∧
     list_assets d10 none = d10.assets ∧
     list_assets d10 (some 1) = d10.assets.filter (fun a => a.room_id == 1)) :=
  ⟨by decide, list_assets_falsy_filter d10 1 (by decide)⟩

/-- In a list of buildings with pairwise-distinct names, the rows matching
a name carried by some member are exactly one. -/
theorem length_filter_name_eq_one (l : List Building) (n : String)
    (hnd : (l.map Building.name).Nodup) (hex : ∃ b ∈ l, b.name = n) :
    (l.filter (fun b => b.name == n)).length = 1 := by
  induction l with
  | nil => simp at hex
  | cons a t ih =>
    rw [List.map_cons, List.nodup_cons] at hnd
    obtain ⟨hna, hnt⟩ := hnd
    by_cases h : a.name = n
    · have ht : t.filter (fun b => b.name == n) = [] := by
        rw [List.filter_eq_nil_iff]
        intro b hb
        simp only [beq_iff_eq]
        intro hbn
        exact hna (List.mem_map.mpr ⟨b, hb, by rw [hbn, h]⟩)
      rw [List.filter_cons_of_pos (by simp [h]), ht]
      rfl
    · obtain ⟨b, hb, hbn⟩ := hex
      rcases List.mem_cons.mp hb with rfl | hbt
      · exact absurd hbn h
      · rw [List.filter_cons_of_neg (by simp [h])]
        exact ih hnt ⟨b, hbt, hbn⟩

/-- C2: registering a building whose name is already taken (by any row,
active or not) fails with the UNIQUE-constraint violation, leaves the
store unchanged, and afterwards exactly one building with that name
exists. -/
theorem add_building_duplicate (s : Store) (n addr : String)
    (fl sq : Int) (bt now : String)
    (hwf : s.wf) (hdup : ∃ b ∈ s.buildings, b.name = n) :
    (add_building s n addr fl sq bt now).1
        = .error (.uniqueConstraint "buildings.name") ∧
    (add_building s n addr fl sq bt now).2 = s ∧
    ((add_building s n addr fl sq bt now).2.buildings.filter
        (fun b => b.name == n)).length = 1 := by
  have hany : s.buildings.any (fun b => b.name == n) = true := by
    obtain ⟨b, hb, hbn⟩ := hdup
    exact List.any_eq_true.mpr ⟨b, hb, by simp [hbn]⟩
  have h2 : (add_building s n addr fl sq bt now).2 = s := by
    simp [add_building, hany]
  refine ⟨by simp [add_building, hany], h2, ?_⟩
  rw [h2]
  exact length_filter_name_eq_one s.buildings n hwf.2.1 hdup

/-- C2 witness: on the scenario store holding "HQ" and "Annex", a second
"HQ" registration fails, changes nothing, and exactly one "HQ" row
remains. -/
theorem add_building_duplicate_witness :
    d2.wf ∧ (∃ b ∈ d2.buildings, b.name = "HQ") ∧
    ((add_building d2 "HQ" "" 1 0 "office" "t").1
        = .error (.uniqueConstraint "buildings.name") ∧
     (add_building d2 "HQ" "" 1 0 "office" "t").2 = d2 ∧
     ((add_building d2 "HQ" "" 1 0 "office" "t").2.buildings.filter
        (fun b => b.name == "HQ")).length = 1) :=
  ⟨by decide, by decide,
   add_building_duplicate d2 "HQ" "" 1 0 "office" "t" (by decide) (by decide)⟩

/-- C7: `list_buildings` returns exactly the buildings whose active flag
is 1, and (in a well-formed store, whose ids are monotonically assigned)
in strictly increasing identifier order; the full set, with no
pagination. -/
theorem list_buildings_active_ordered (s : Store) (hwf : s.wf) :
    (∀ b, b ∈ list_buildings s ↔ b ∈ s.buildings ∧ b.active = 1) ∧
    (list_buildings s).Pairwise (fun a b => a.id < b.id) := by
  refine ⟨fun b => ?_, List.Pairwise.sublist (List.filter_sublist _) hwf.1⟩
  simp [list_buildings, List.mem_filter]

/-- C7 witness: the membership characterisation and the id ordering hold
on the two-building scenario store. -/
theorem list_buildings_active_ordered_witness :
    d2.wf ∧
    ((∀ b, b ∈ list_buildings d2 ↔ b ∈ d2.buildings ∧ b.active = 1) ∧
     (list_buildings d2).Pairwise (fun a b => a.id < b.id)) :=
  ⟨by decide, list_buildings_active_ordered d2 (by decide)⟩

/-- C8: registering a building under a fresh name in a well-formed store
succeeds and returns the fully populated record, with a positive assigned
identifier and active flag 1, and `list_buildings` afterwards is the
previous listing extended by exactly that record. -/
theorem add_building_fresh (s : Store) (n addr : String)
    (fl sq : Int) (bt now : String)
    (hwf : s.wf) (hfresh : ∀ b ∈ s.buildings, b.name ≠ n) :
    ∃ b : Building,
      (add_building s n addr fl sq bt now).1 = .ok b ∧
      0 < b.id ∧ b.active = 1 ∧ b.name = n ∧ b.address = addr ∧
      b.floors = fl ∧ b.total_sqft = sq ∧ b.building_type = bt ∧
      b.created_at = now ∧
      list_buildings (add_building s n addr fl sq bt now).2
        = list_buildings s ++ [b] := by
  have hany : s.buildings.any (fun b => b.name == n) = false := by
    rw [List.any_eq_false]
    intro b hb
    simp [hfresh b hb]
  refine ⟨{ id := s.nextBuildingId, name := n, address := addr, floors := fl
            total_sqft := sq, building_type := bt, created_at := now
            active := 1 },
          by simp [add_building, hany], hwf.2.2.2, rfl, rfl, rfl, rfl, rfl,
          rfl, rfl, ?_⟩
  simp [add_building, hany, list_buildings, List.filter_append]

/-- C8 witness: registering "HQ" on the empty store yields id 1, active
flag 1, and a listing of exactly that building. -/
theorem add_building_fresh_witness :
    (emptyStore "p").wf ∧ (∀ b ∈ (emptyStore "p").buildings, b.name ≠ "HQ") ∧
    (∃ b : Building,
      (add_building (emptyStore "p") "HQ" "1 Main St" 5 10000 "office" "t").1 = .ok b ∧
      0 < b.id ∧ b.active = 1 ∧ b.name = "HQ" ∧ b.address = "1 Main St" ∧
      b.floors = 5 ∧ b.total_sqft = 10000 ∧ b.building_type = "office" ∧
      b.created_at = "t" ∧
      list_buildings (add_building (emptyStore "p") "HQ" "1 Main St" 5 10000 "office" "t").2
        = list_buildings (emptyStore "p") ++ [b]) :=
  ⟨by decide, by decide,
   add_building_fresh (emptyStore "p") "HQ" "1 Main St" 5 10000 "office" "t"
     (by decide) (by decide)⟩

/-- C5 counterexample: in the scenario store, the empty string matches no
building, yet `list_rooms` with it returns all rooms (the falsy branch),
not the empty sequence the claim requires for every non-matching name. -/
theorem list_rooms_nonmatching_counterexample :
    (∀ b ∈ d3.buildings, b.name ≠ "") ∧ list_rooms d3 (some "") ≠ [] := by
  constructor <;> decide

/-- C5 (amended to non-empty names): `list_rooms` with a non-empty name
matching no building returns the empty sequence, not an error; with a
non-empty name matching a building it returns exactly that building's
rooms; with no filter it returns all rooms. -/
theorem list_rooms_filter_spec (s : Store) (n : String) (hn : n ≠ "") :
    (findBuilding s n = none → list_rooms s (some n) = []) ∧
    (∀ b, findBuilding s n = some b →
      list_rooms s (some n) = s.rooms.filter (fun r => r.building_id == b.id)) ∧
    list_rooms s none = s.rooms := by
  refine ⟨fun h => ?_, fun b h => ?_, rfl⟩ <;> simp [list_rooms, hn, h]

/-- C5 witness: on the scenario store, filtering by the unknown name
"Depot" yields `[]` and filtering by "HQ" yields exactly HQ's two rooms. -/
theorem list_rooms_filter_spec_witness :
    ("HQ" : String) ≠ "" ∧
    ((findBuilding d10 "HQ" = none → list_rooms d10 (some "HQ") = []) ∧
     (∀ b, findBuilding d10 "HQ" = some b →
       list_rooms d10 (some "HQ") = d10.rooms.filter (fun r => r.building_id == b.id)) ∧
     list_rooms d10 none = d10.rooms) :=
  ⟨by decide, list_rooms_filter_spec d10 "HQ" (by decide)⟩

end Facilities
